import Mathlib

/-!
Shallow embedding of the event-streaming / notification-routing core of the
opencode-on-im repository:

* `src/opencode_on_im/opencode/events.py` — `EventSubscriber` (SSE subscription
  loop with auto-reconnect, exponential backoff with jitter, synthetic
  `_connection.lost` / `_connection.restored` events, SSE line processing);
* `src/opencode_on_im/core/notification.py` — `NotificationRouter` (online-user
  registry and event fan-out);
* `src/opencode_on_im/core/app.py` — `Application._on_opencode_event`
  (stamping `instance_id` from `session_id` and calling `route`).

Modelling conventions:

* Python floats are modelled as `ℚ`; machine integers as `ℤ`/`ℕ`.
* `json.loads` (an external stdlib function) is a parameter
  `parse : String → Option JVal`; `none` models a `json.JSONDecodeError`.
* `random.uniform(0.8, 1.2)` draws are an input list of rationals, consumed
  one per reconnection block.
* Wall-clock fields of `ConnectionStats` (`last_event_time`,
  `last_reconnect_time`, `connected_since`) and the `timestamp` field of
  `OpenCodeEvent` are omitted: no claim observes them.
* The optional `on_state_change` callback is not registered by the
  orchestrator and its exceptions are swallowed by `_set_state`; it is omitted.
* The network behaviour of one `_subscribe` call is an input
  `AttemptOutcome`; the event callback's raising behaviour is an input
  predicate `cbRaises : OpenCodeEvent → Bool`.
* A CPython `set` is modelled as a `Finset`; `list(some_set)` produces the
  elements in an order CPython does not specify, so enumerations of a set are
  supplied as an input list constrained by `admissibleEnum`.
-/

/-- A Python value as produced by `json.loads` (and Python `None` itself,
represented by `null`). Numbers are collapsed to `ℚ`. -/
inductive JVal where
  | null
  | bool (b : Bool)
  | num (q : ℚ)
  | str (s : String)
  | arr (xs : List JVal)
  | obj (kvs : List (String × JVal))

/-- Python truthiness (`if not x:` tests) for the values of `JVal`. -/
def JVal.truthy : JVal → Bool
  | .null => false
  | .bool b => b
  | .num q => if q = 0 then false else true
  | .str s => if s = "" then false else true
  | .arr xs => !xs.isEmpty
  | .obj kvs => !kvs.isEmpty

/-- `d.get(k)` on a Python dict modelled as an association list:
`none` means the key is absent. Python dicts have unique keys; lookup takes
the first matching entry. -/
def dlookup (kvs : List (String × JVal)) (k : String) : Option JVal :=
  (kvs.find? (fun kv => kv.1 == k)).map (·.2)

/-- `d[k] = v` on a Python dict: replaces the value in place when the key is
present (keeping its position), otherwise appends the new entry (insertion
order). Used to model `{... , **other}` dict merging. -/
def dinsert (kvs : List (String × JVal)) (k : String) (v : JVal) :
    List (String × JVal) :=
  if (kvs.find? (fun kv => kv.1 == k)).isSome then
    kvs.map (fun kv => if kv.1 == k then (k, v) else kv)
  else kvs ++ [(k, v)]

/-- Python's `a or b`: `a` when truthy, otherwise `b`. -/
def pyOr (a b : JVal) : JVal := if a.truthy then a else b

/-- `events.py: OpenCodeEvent` — parsed event dataclass. Field types are
`JVal` because the source reads them out of a dynamic dict without
conversion; `data = none` is Python `None` (the dataclass default). The
`timestamp` field is omitted (wall clock). -/
structure OpenCodeEvent where
  type : JVal
  session_id : JVal := .null
  message_id : JVal := .null
  content : JVal := .null
  data : Option (List (String × JVal)) := none

/-- `events.py: OpenCodeEvent.from_dict` — parse an event from SSE data. -/
def OpenCodeEvent.from_dict (d : List (String × JVal)) : OpenCodeEvent :=
  { type := (dlookup d "type").getD (.str "unknown")
    session_id := pyOr ((dlookup d "sessionID").getD .null)
      ((dlookup d "session_id").getD .null)
    message_id := pyOr ((dlookup d "messageID").getD .null)
      ((dlookup d "message_id").getD .null)
    content := (dlookup d "content").getD .null
    data := some d }

/-- The synthetic event built at `events.py:277-282`:
`OpenCodeEvent(type=EventType.CONNECTION_LOST.value, data={"reconnect_in": delay})`.
All other fields keep their dataclass defaults (`session_id = None`). -/
def mkConnectionLost (delay : ℚ) : OpenCodeEvent :=
  { type := .str "_connection.lost"
    data := some [("reconnect_in", .num delay)] }

/-- The synthetic event built at `events.py:333-338`:
`OpenCodeEvent(type=EventType.CONNECTION_RESTORED.value, data={"reconnect_count": n})`. -/
def mkConnectionRestored (count : ℕ) : OpenCodeEvent :=
  { type := .str "_connection.restored"
    data := some [("reconnect_count", .num count)] }

/-- `events.py: ConnectionState` — SSE connection state. -/
inductive ConnectionState where
  | DISCONNECTED
  | CONNECTING
  | CONNECTED
  | RECONNECTING
deriving DecidableEq, Repr

/-- `events.py: ConnectionStats` — counters owned by the subscriber
(wall-clock fields omitted). -/
structure ConnectionStats where
  total_events : ℕ := 0
  total_reconnects : ℕ := 0
  current_state : ConnectionState := .DISCONNECTED
deriving DecidableEq, Repr

/-- Constructor arguments of `EventSubscriber.__init__`. -/
structure SubscriberConfig where
  min_reconnect_delay : ℚ := 1
  max_reconnect_delay : ℚ := 30
  max_reconnect_attempts : Option ℕ := none
deriving DecidableEq

/-- Mutable fields of `EventSubscriber` relevant to the subscription loop.
`running` backs the `is_running` property (`events.py:156-159`). -/
structure SubscriberState where
  running : Bool := false
  reconnect_delay : ℚ
  reconnect_attempts : ℕ := 0
  state : ConnectionState := .DISCONNECTED
  stats : ConnectionStats := {}
deriving DecidableEq, Repr

/-- `events.py: EventSubscriber._set_state` — update `_state` and the
mirrored `stats.current_state` when the state actually changes. -/
def setState (st : SubscriberState) (new : ConnectionState) : SubscriberState :=
  if st.state = new then st
  else { st with state := new, stats := { st.stats with current_state := new } }

/-- Python's binary `min` on floats (kernel-reducible form of `min` on `ℚ`). -/
def qmin (a b : ℚ) : ℚ := if a ≤ b then a else b

/-- Python's binary `max` on floats (kernel-reducible form of `max` on `ℚ`). -/
def qmax (a b : ℚ) : ℚ := if a ≤ b then b else a

/-- Python `s.startswith(p)` (over the characters of the strings). -/
def pyStartsWith (s p : String) : Bool := p.data.isPrefixOf s.data

/-- Python `s[n:]` (drop the first `n` characters). -/
def pyDrop (s : String) (n : ℕ) : String := ⟨s.data.drop n⟩

/-- Python `s.strip()` — remove leading and trailing whitespace. -/
def pyTrim (s : String) : String :=
  ⟨((s.data.dropWhile Char.isWhitespace).reverse.dropWhile
      Char.isWhitespace).reverse⟩

/-- Value of a nonempty all-digit character list, `none` otherwise. -/
def digitsVal (cs : List Char) : Option ℕ :=
  if cs = [] then none
  else if cs.all Char.isDigit then
    some (cs.foldl (fun a c => a * 10 + (c.toNat - 48)) 0)
  else none

/-- Python `int(s)` on an already-stripped string (ASCII decimal with an
optional sign); `none` models `ValueError`. -/
def pyInt (s : String) : Option ℤ :=
  match s.data with
  | '-' :: rest => (digitsVal rest).map (fun n => -(n : ℤ))
  | '+' :: rest => (digitsVal rest).map (fun n => (n : ℤ))
  | cs => (digitsVal cs).map (fun n => (n : ℤ))

/-- An observable step of the subscription loop: a callback invocation or a
backoff sleep. -/
inductive LoopAction where
  | deliver (e : OpenCodeEvent)
  | sleep (d : ℚ)

/-- `events.py: EventSubscriber._process_line` — process one SSE line.
Returns the updated state and the callback invocations made. A callback
exception on a parsed `data:` event is caught by the handler at
`events.py:376-377`, so it has no observable effect beyond the (recorded)
invocation; the stats update precedes the callback in the source. A parsed
JSON value that is not an object makes `from_dict` raise before the stats
update; that exception is caught by the same handler. -/
def processLine (cfg : SubscriberConfig) (parse : String → Option JVal)
    (st : SubscriberState) (line : String) : SubscriberState × List LoopAction :=
  if line = "" then (st, [])
  else if pyStartsWith line "data:" then
    let data_str := pyTrim (pyDrop line 5)
    if data_str = "" then (st, [])
    else
      match parse data_str with
      | some (.obj kvs) =>
        let event := OpenCodeEvent.from_dict kvs
        ({ st with stats :=
            { st.stats with total_events := st.stats.total_events + 1 } },
         [.deliver event])
      | some _ => (st, [])
      | none => (st, [])
  else if pyStartsWith line "event:" then (st, [])
  else if pyStartsWith line "id:" then (st, [])
  else if pyStartsWith line "retry:" then
    match pyInt (pyTrim (pyDrop line 6)) with
    | some r =>
      let d := qmax cfg.min_reconnect_delay
        (qmin ((r : ℚ) / 1000) cfg.max_reconnect_delay)
      ({ st with reconnect_delay := d }, [])
    | none => (st, [])
  else (st, [])

/-- The `async for line in response.aiter_lines()` loop body folded over a
list of received lines (`_running` is invariantly true during a run). -/
def processLines (cfg : SubscriberConfig) (parse : String → Option JVal) :
    SubscriberState → List String → SubscriberState × List LoopAction
  | st, [] => (st, [])
  | st, l :: rest =>
    let p := processLine cfg parse st l
    let q := processLines cfg parse p.1 rest
    (q.1, p.2 ++ q.2)

/-- Classification of the exceptions distinguished by `_subscribe_loop`. -/
inductive ExcClass where
  | httpStatus (code : ℕ)
  | connErr
  | cancelled
  | other
deriving DecidableEq

/-- How one established SSE connection ends: the stream closes cleanly, an
exception is raised, or the observation window ends with the stream still
open. -/
inductive ConnEnd where
  | clean
  | err (e : ExcClass)
  | pending
deriving DecidableEq

/-- Network behaviour of one `_subscribe` call: either it raises before the
connection is established (`raise_for_status` or earlier), or the stream
connects, yields the given lines, and then ends as described. -/
inductive AttemptOutcome where
  | fail (e : ExcClass)
  | connected (lines : List String) (fin : ConnEnd)

/-- Result of one `_subscribe` call as seen by `_subscribe_loop`. -/
inductive SubResult where
  | ret
  | raised (e : ExcClass)
  | suspended
deriving DecidableEq

/-- Map the end of a connected stream to the result of `_subscribe`. -/
def finResult : ConnEnd → SubResult
  | .clean => .ret
  | .err e => .raised e
  | .pending => .suspended

/-- `events.py: EventSubscriber._subscribe` — one subscription attempt.
On success (`events.py:317-323`): state goes CONNECTING then CONNECTED and
the backoff counters reset; if `stats.total_reconnects > 0` the restored
event is delivered (`events.py:331-338`). That callback call is not guarded
inside `_subscribe`, so an exception there tears the stream down and
surfaces to the loop's generic handler (modelled as `.raised .other`). -/
def subscribeStep (cfg : SubscriberConfig) (parse : String → Option JVal)
    (cbRaises : OpenCodeEvent → Bool) (st : SubscriberState) :
    AttemptOutcome → SubscriberState × List LoopAction × SubResult
  | .fail e => (setState st .CONNECTING, [], .raised e)
  | .connected lines fin =>
    let st1 := setState (setState st .CONNECTING) .CONNECTED
    let st2 := { st1 with reconnect_delay := cfg.min_reconnect_delay,
                          reconnect_attempts := 0 }
    if st2.stats.total_reconnects > 0 then
      let ev := mkConnectionRestored st2.stats.total_reconnects
      if cbRaises ev then (st2, [.deliver ev], .raised .other)
      else
        let p := processLines cfg parse st2 lines
        (p.1, .deliver ev :: p.2, finResult fin)
    else
      let p := processLines cfg parse st2 lines
      (p.1, p.2, finResult fin)

/-- What `_subscribe_loop` does right after the `try` block around
`_subscribe` (`events.py:221-255`): clean exit resets the backoff counters;
HTTP 401/403 and `CancelledError` break out of the loop; every other
exception falls through to the reconnection block. -/
inductive TryDecision where
  | proceed (st : SubscriberState)
  | breakLoop (st : SubscriberState)
  | suspend (st : SubscriberState)

/-- Decide how the loop continues from the result of one attempt. -/
def afterTry (cfg : SubscriberConfig) (st : SubscriberState) :
    SubResult → TryDecision
  | .ret => .proceed { st with reconnect_delay := cfg.min_reconnect_delay,
                               reconnect_attempts := 0 }
  | .raised (.httpStatus c) =>
    if c = 401 ∨ c = 403 then .breakLoop st else .proceed st
  | .raised .cancelled => .breakLoop st
  | .raised .connErr => .proceed st
  | .raised .other => .proceed st
  | .suspended => .suspend st

/-- Outcome of the reconnection block: continue looping, break out, or die
with an uncaught exception. -/
inductive AfterOut where
  | cont
  | brk
  | died
deriving DecidableEq

/-- Interior of the reconnection block after the max-attempts check
(`events.py:274-293`): enter RECONNECTING, deliver the `_connection.lost`
event — this callback call is not inside any try, so an exception here
escapes `_subscribe_loop` (`died`) — then sleep the current delay and apply
exponential backoff with the next jitter draw. -/
def afterAttemptGo (cfg : SubscriberConfig) (cbRaises : OpenCodeEvent → Bool)
    (st : SubscriberState) (js : List ℚ) :
    SubscriberState × List LoopAction × List ℚ × AfterOut :=
  let st1 := setState st .RECONNECTING
  let ev := mkConnectionLost st1.reconnect_delay
  if cbRaises ev then (st1, [.deliver ev], js, .died)
  else
    let j := js.headD 1
    let d := qmin (st1.reconnect_delay * 2 * j) cfg.max_reconnect_delay
    ({ st1 with reconnect_delay := d },
     [.deliver ev, .sleep st1.reconnect_delay], js.tail, .cont)

/-- `events.py:257-293` — the `if self._running:` reconnection block
(`_running` is invariantly true here): bump the attempt counters, break if
the optional cap is reached, otherwise run the interior block. -/
def afterAttempt (cfg : SubscriberConfig) (cbRaises : OpenCodeEvent → Bool)
    (st : SubscriberState) (js : List ℚ) :
    SubscriberState × List LoopAction × List ℚ × AfterOut :=
  let st1 := { st with
      reconnect_attempts := st.reconnect_attempts + 1,
      stats := { st.stats with
        total_reconnects := st.stats.total_reconnects + 1 } }
  match cfg.max_reconnect_attempts with
  | some m =>
    if m ≤ st1.reconnect_attempts then (st1, [], js, .brk)
    else afterAttemptGo cfg cbRaises st1 js
  | none => afterAttemptGo cfg cbRaises st1 js

/-- How a finite observation of `_subscribe_loop` ends. -/
inductive LoopResult where
  | stillRunning
  | stopped
  | crashed
deriving DecidableEq

/-- `events.py: EventSubscriber._subscribe_loop` — the subscription loop,
driven by a list of attempt outcomes (the observation window). A `break`
exits the `while` and runs the final `_set_state(DISCONNECTED)` at
`events.py:295`; an uncaught callback exception (`crashed`) skips it. -/
def runLoop (cfg : SubscriberConfig) (parse : String → Option JVal)
    (cbRaises : OpenCodeEvent → Bool) :
    SubscriberState → List ℚ → List AttemptOutcome →
    SubscriberState × List LoopAction × LoopResult
  | st, _, [] => (st, [], .stillRunning)
  | st, js, a :: rest =>
    let s := subscribeStep cfg parse cbRaises st a
    match afterTry cfg s.1 s.2.2 with
    | .suspend st1 => (st1, s.2.1, .stillRunning)
    | .breakLoop st1 => (setState st1 .DISCONNECTED, s.2.1, .stopped)
    | .proceed st1 =>
      let b := afterAttempt cfg cbRaises st1 js
      match b.2.2.2 with
      | .brk => (setState b.1 .DISCONNECTED, s.2.1 ++ b.2.1, .stopped)
      | .died => (b.1, s.2.1 ++ b.2.1, .crashed)
      | .cont =>
        let t := runLoop cfg parse cbRaises b.1 b.2.2.1 rest
        (t.1, s.2.1 ++ b.2.1 ++ t.2.1, t.2.2)

/-- `events.py: EventSubscriber.start` — the state right after `start`:
`_running = True`, backoff reset, DISCONNECTED → CONNECTING, fresh stats. -/
def startState (cfg : SubscriberConfig) : SubscriberState :=
  setState
    { running := true, reconnect_delay := cfg.min_reconnect_delay,
      reconnect_attempts := 0, state := .DISCONNECTED, stats := {} }
    .CONNECTING

/-- A run of the subscriber from `start`. -/
def runFromStart (cfg : SubscriberConfig) (parse : String → Option JVal)
    (cbRaises : OpenCodeEvent → Bool) (js : List ℚ)
    (outcomes : List AttemptOutcome) :
    SubscriberState × List LoopAction × LoopResult :=
  runLoop cfg parse cbRaises (startState cfg) js outcomes

/-- The sleeps of an action trace, in order. -/
def sleepsOf (acts : List LoopAction) : List ℚ :=
  acts.filterMap (fun a => match a with | .sleep d => some d | _ => none)

/-- A callback that never raises. -/
def cbNever : OpenCodeEvent → Bool := fun _ => false

/-- A callback that raises exactly on the synthetic `_connection.lost`
event (used to exercise the unguarded callback call at `events.py:277`). -/
def cbLostRaises : OpenCodeEvent → Bool := fun e =>
  match e.type with
  | .str s => s == "_connection.lost"
  | _ => false

/-- Net effect of one failed attempt followed by the reconnection block
(derived from `subscribeStep` + `afterAttempt` on a state whose `state`
field is not RECONNECTING): counters bumped, state RECONNECTING, delay
doubled with jitter `j` and capped. -/
def failStep (cfg : SubscriberConfig) (st : SubscriberState) (j : ℚ) :
    SubscriberState :=
  { running := st.running
    reconnect_delay := qmin (st.reconnect_delay * 2 * j) cfg.max_reconnect_delay
    reconnect_attempts := st.reconnect_attempts + 1
    state := .RECONNECTING
    stats := { total_events := st.stats.total_events
               total_reconnects := st.stats.total_reconnects + 1
               current_state := .RECONNECTING } }

/-- State right after a successful connection inside `_subscribe`
(`events.py:317-323`): CONNECTED, backoff counters reset. -/
def connState (cfg : SubscriberConfig) (st : SubscriberState) :
    SubscriberState :=
  { running := st.running
    reconnect_delay := cfg.min_reconnect_delay
    reconnect_attempts := 0
    state := .CONNECTED
    stats := { st.stats with current_state := .CONNECTED } }

/-- State after `k` consecutive failed attempts (iterated `failStep`),
consuming one jitter draw per attempt. -/
def failIter (cfg : SubscriberConfig) :
    ℕ → SubscriberState → List ℚ → SubscriberState
  | 0, st, _ => st
  | k + 1, st, js => failIter cfg k (failStep cfg st (js.headD 1)) js.tail

/-- The action trace of `k` consecutive reconnection blocks starting from
delay `d`: per drop, one `_connection.lost` delivery (carrying the current
delay) immediately followed by the sleep of that same delay. -/
def lostPhase (cfg : SubscriberConfig) :
    ℕ → ℚ → List ℚ → List LoopAction
  | 0, _, _ => []
  | k + 1, d, js =>
    .deliver (mkConnectionLost d) :: .sleep d ::
      lostPhase cfg k (qmin (d * 2 * js.headD 1) cfg.max_reconnect_delay) js.tail

/-- The successive backoff delays actually slept over `k` consecutive
failures: `d₀ = d`, `dₖ₊₁ = min(dₖ · 2 · jitterₖ, max_delay)`. -/
def delays (cfg : SubscriberConfig) : ℕ → ℚ → List ℚ → List ℚ
  | 0, _, _ => []
  | k + 1, d, js =>
    d :: delays cfg k (qmin (d * 2 * js.headD 1) cfg.max_reconnect_delay) js.tail

section Router

/-- A `(platform, user_id)` pair of the online registry. -/
abbrev UserPair := String × String

/-- `notification.py: NotificationRouter._online_users` — dict from
instance id to a set of `(platform, user_id)` pairs. Keys are unique and
kept in insertion order (Python dict); the set content is a `Finset`. -/
abbrev Registry := List (String × Finset UserPair)

/-- Dict lookup on the registry. -/
def regLookup (reg : Registry) (i : String) : Option (Finset UserPair) :=
  (reg.find? (fun e => e.1 == i)).map (·.2)

/-- `notification.py: NotificationRouter.register_online` — create the entry
if missing, then `set.add((platform, user_id))`. -/
def register_online (reg : Registry) (i p u : String) : Registry :=
  match regLookup reg i with
  | some _ => reg.map (fun e => if e.1 == i then (e.1, insert (p, u) e.2) else e)
  | none => reg ++ [(i, {(p, u)})]

/-- `notification.py: NotificationRouter.unregister_online` —
`set.discard((platform, user_id))` when the instance has an entry. -/
def unregister_online (reg : Registry) (i p u : String) : Registry :=
  match regLookup reg i with
  | some _ => reg.map (fun e => if e.1 == i then (e.1, e.2.erase (p, u)) else e)
  | none => reg

/-- `notification.py: NotificationRouter.get_online_users` — the set content
behind `list(self._online_users.get(instance_id, []))`. The order of the
list CPython builds from the set is unspecified; it is modelled by an
`admissibleEnum` enumeration supplied to `route`. -/
def get_online_users (reg : Registry) (i : String) : Finset UserPair :=
  (regLookup reg i).getD ∅

/-- Dict lookup keyed by an arbitrary Python value: registry keys are
strings, so a non-string `instance_id` finds nothing. -/
def get_online_users_j (reg : Registry) (v : JVal) : Finset UserPair :=
  match v with
  | .str s => get_online_users reg s
  | _ => ∅

/-- The lists `list(s)` may produce from a CPython set `s`: each element of
the set exactly once, in some order. -/
def admissibleEnum (s : Finset UserPair) (l : List UserPair) : Prop :=
  l.Nodup ∧ l.toFinset = s

instance (s : Finset UserPair) (l : List UserPair) :
    Decidable (admissibleEnum s l) := by
  unfold admissibleEnum; infer_instance

/-- An adapter as the router sees it (`adapters/base.py` interface): a
platform tag and the raising behaviour of `send_event` (exceptions are
caught per recipient in `route`). -/
structure MAdapter where
  platform : String
  sendFails : String → List (String × JVal) → Bool

/-- One `adapter.send_event(user_id, event)` call made by `route`;
`ok = false` records that the call raised (and was caught and logged). -/
structure SendCall where
  platform : String
  user_id : String
  ok : Bool
deriving DecidableEq, Repr

/-- The fan-out loops of `notification.py:66-77`: for each online user in
enumeration order, for each adapter with a matching platform tag, call
`send_event`; a per-recipient exception is caught and the loops continue. -/
def routeUsers (users : List UserPair) (adapters : List MAdapter)
    (event : List (String × JVal)) : List SendCall :=
  users.flatMap (fun pu =>
    adapters.flatMap (fun ad =>
      if ad.platform == pu.1 then
        [{ platform := pu.1, user_id := pu.2, ok := !ad.sendFails pu.2 event }]
      else []))

/-- `notification.py: NotificationRouter.route` — read `instance_id` from
the event dict; when falsy, log a warning and return (no calls). Otherwise
fan out to the supplied enumeration of the instance's online set. The
registry is returned to make explicit that `route` never mutates it. -/
def route (reg : Registry) (event : List (String × JVal))
    (adapters : List MAdapter) (enum : List UserPair) :
    Registry × List SendCall :=
  let inst := (dlookup event "instance_id").getD .null
  if inst.truthy then (reg, routeUsers enum adapters event)
  else (reg, [])

/-- `app.py: Application._on_opencode_event` — the dict the orchestrator
builds from an `OpenCodeEvent` before calling `route`:
`{"type": ..., "instance_id": event.session_id, "content": ..., **(event.data or {})}`. -/
def build_event_dict (e : OpenCodeEvent) : List (String × JVal) :=
  (e.data.getD []).foldl (fun d kv => dinsert d kv.1 kv.2)
    [("type", e.type), ("instance_id", e.session_id), ("content", e.content)]

end Router

/-- The clamped delay installed by an SSE `retry: r` line
(`events.py:389-392`): `max(min_delay, min(r/1000, max_delay))`. -/
def clampDelay (cfg : SubscriberConfig) (r : ℤ) : ℚ :=
  qmax cfg.min_reconnect_delay (qmin ((r : ℚ) / 1000) cfg.max_reconnect_delay)

/-! ### Helper lemmas -/

theorem qmin_eq_min (a b : ℚ) : qmin a b = min a b := by
  unfold qmin; rw [min_def]

theorem qmax_eq_max (a b : ℚ) : qmax a b = max a b := by
  unfold qmax; rw [max_def]

@[simp] theorem setState_running (st : SubscriberState) (s : ConnectionState) :
    (setState st s).running = st.running := by
  unfold setState; split <;> rfl

@[simp] theorem setState_reconnect_delay (st : SubscriberState)
    (s : ConnectionState) :
    (setState st s).reconnect_delay = st.reconnect_delay := by
  unfold setState; split <;> rfl

@[simp] theorem setState_reconnect_attempts (st : SubscriberState)
    (s : ConnectionState) :
    (setState st s).reconnect_attempts = st.reconnect_attempts := by
  unfold setState; split <;> rfl

@[simp] theorem setState_total_events (st : SubscriberState)
    (s : ConnectionState) :
    (setState st s).stats.total_events = st.stats.total_events := by
  unfold setState; split <;> rfl

@[simp] theorem setState_total_reconnects (st : SubscriberState)
    (s : ConnectionState) :
    (setState st s).stats.total_reconnects = st.stats.total_reconnects := by
  unfold setState; split <;> rfl

@[simp] theorem setState_state (st : SubscriberState) (s : ConnectionState) :
    (setState st s).state = s := by
  unfold setState; split
  · assumption
  · rfl

theorem failStep_setState (cfg : SubscriberConfig) (st : SubscriberState)
    (s : ConnectionState) (j : ℚ) :
    failStep cfg (setState st s) j = failStep cfg st j := by
  unfold failStep; simp

theorem afterAttempt_cont (cfg : SubscriberConfig) (cb : OpenCodeEvent → Bool)
    (st : SubscriberState) (js : List ℚ)
    (hs : st.state ≠ .RECONNECTING)
    (hcap : cfg.max_reconnect_attempts = none)
    (hcb : cb (mkConnectionLost st.reconnect_delay) = false) :
    afterAttempt cfg cb st js =
      (failStep cfg st (js.headD 1),
       [.deliver (mkConnectionLost st.reconnect_delay),
        .sleep st.reconnect_delay],
       js.tail, .cont) := by
  unfold afterAttempt afterAttemptGo setState failStep
  simp only [hcap]
  rw [if_neg hs]
  simp [hcb]

theorem runLoop_fail_connErr (cfg : SubscriberConfig)
    (parse : String → Option JVal) (cb : OpenCodeEvent → Bool)
    (st : SubscriberState) (js : List ℚ) (rest : List AttemptOutcome)
    (hcap : cfg.max_reconnect_attempts = none)
    (hcb : cb (mkConnectionLost st.reconnect_delay) = false) :
    runLoop cfg parse cb st js (.fail .connErr :: rest) =
      (let t := runLoop cfg parse cb (failStep cfg st (js.headD 1)) js.tail rest
       (t.1, .deliver (mkConnectionLost st.reconnect_delay) ::
             .sleep st.reconnect_delay :: t.2.1, t.2.2)) := by
  simp only [runLoop, subscribeStep, afterTry]
  rw [afterAttempt_cont cfg cb (setState st .CONNECTING) js
    (by simp) hcap (by simpa using hcb)]
  simp [failStep_setState]

theorem runLoop_fail_auth (cfg : SubscriberConfig)
    (parse : String → Option JVal) (cb : OpenCodeEvent → Bool)
    (st : SubscriberState) (js : List ℚ) (rest : List AttemptOutcome)
    (c : ℕ) (hc : c = 401 ∨ c = 403) :
    runLoop cfg parse cb st js (.fail (.httpStatus c) :: rest) =
      ({ st with state := .DISCONNECTED,
                 stats := { st.stats with current_state := .DISCONNECTED } },
       [], .stopped) := by
  simp only [runLoop, subscribeStep, afterTry, if_pos hc]
  have h1 : (setState st .CONNECTING).state = .CONNECTING := by simp
  by_cases h : st.state = .CONNECTING <;>
    simp [setState, h]

theorem runLoop_fail_connErr_crash (cfg : SubscriberConfig)
    (parse : String → Option JVal) (cb : OpenCodeEvent → Bool)
    (st : SubscriberState) (js : List ℚ) (rest : List AttemptOutcome)
    (hcap : cfg.max_reconnect_attempts = none)
    (hcb : cb (mkConnectionLost st.reconnect_delay) = true) :
    runLoop cfg parse cb st js (.fail .connErr :: rest) =
      ({ st with reconnect_attempts := st.reconnect_attempts + 1,
                 state := .RECONNECTING,
                 stats := { st.stats with
                   total_reconnects := st.stats.total_reconnects + 1,
                   current_state := .RECONNECTING } },
       [.deliver (mkConnectionLost st.reconnect_delay)], .crashed) := by
  simp only [runLoop, subscribeStep, afterTry, afterAttempt, afterAttemptGo, hcap]
  by_cases h : st.state = .CONNECTING <;>
    simp [setState, h, hcb]

theorem connected_connState (cfg : SubscriberConfig) (st : SubscriberState) :
    ({ setState (setState st .CONNECTING) .CONNECTED with
        reconnect_delay := cfg.min_reconnect_delay,
        reconnect_attempts := 0 } : SubscriberState) = connState cfg st := by
  by_cases h : st.state = .CONNECTING <;> simp [setState, h, connState]

theorem subscribeStep_connected0 (cfg : SubscriberConfig)
    (parse : String → Option JVal) (cb : OpenCodeEvent → Bool)
    (st : SubscriberState) (lines : List String) (fin : ConnEnd)
    (h0 : st.stats.total_reconnects = 0) :
    subscribeStep cfg parse cb st (.connected lines fin) =
      (let p := processLines cfg parse (connState cfg st) lines
       (p.1, p.2, finResult fin)) := by
  simp only [subscribeStep]
  rw [connected_connState]
  simp [h0]

theorem subscribeStep_connectedR (cfg : SubscriberConfig)
    (parse : String → Option JVal) (cb : OpenCodeEvent → Bool)
    (st : SubscriberState) (lines : List String) (fin : ConnEnd)
    (hR : 0 < st.stats.total_reconnects)
    (hcb : cb (mkConnectionRestored st.stats.total_reconnects) = false) :
    subscribeStep cfg parse cb st (.connected lines fin) =
      (let p := processLines cfg parse (connState cfg st) lines
       (p.1, .deliver (mkConnectionRestored st.stats.total_reconnects) :: p.2,
        finResult fin)) := by
  simp only [subscribeStep]
  rw [connected_connState]
  simp [hR, hcb]

@[simp] theorem processLine_state (cfg : SubscriberConfig)
    (parse : String → Option JVal) (st : SubscriberState) (line : String) :
    (processLine cfg parse st line).1.state = st.state := by
  unfold processLine
  dsimp only
  repeat' split
  all_goals simp

@[simp] theorem processLines_state (cfg : SubscriberConfig)
    (parse : String → Option JVal) :
    ∀ (ls : List String) (st : SubscriberState),
    (processLines cfg parse st ls).1.state = st.state
  | [], _ => rfl
  | l :: rest, st => by
    simp only [processLines]
    rw [processLines_state cfg parse rest, processLine_state]

@[simp] theorem processLine_running (cfg : SubscriberConfig)
    (parse : String → Option JVal) (st : SubscriberState) (line : String) :
    (processLine cfg parse st line).1.running = st.running := by
  unfold processLine
  dsimp only
  repeat' split
  all_goals simp

@[simp] theorem processLines_running (cfg : SubscriberConfig)
    (parse : String → Option JVal) :
    ∀ (ls : List String) (st : SubscriberState),
    (processLines cfg parse st ls).1.running = st.running
  | [], _ => rfl
  | l :: rest, st => by
    simp only [processLines]
    rw [processLines_running cfg parse rest, processLine_running]

@[simp] theorem processLine_reconnect_attempts (cfg : SubscriberConfig)
    (parse : String → Option JVal) (st : SubscriberState) (line : String) :
    (processLine cfg parse st line).1.reconnect_attempts = st.reconnect_attempts := by
  unfold processLine
  dsimp only
  repeat' split
  all_goals simp

@[simp] theorem processLines_reconnect_attempts (cfg : SubscriberConfig)
    (parse : String → Option JVal) :
    ∀ (ls : List String) (st : SubscriberState),
    (processLines cfg parse st ls).1.reconnect_attempts = st.reconnect_attempts
  | [], _ => rfl
  | l :: rest, st => by
    simp only [processLines]
    rw [processLines_reconnect_attempts cfg parse rest, processLine_reconnect_attempts]

@[simp] theorem processLine_total_reconnects (cfg : SubscriberConfig)
    (parse : String → Option JVal) (st : SubscriberState) (line : String) :
    (processLine cfg parse st line).1.stats.total_reconnects = st.stats.total_reconnects := by
  unfold processLine
  dsimp only
  repeat' split
  all_goals simp

@[simp] theorem processLines_total_reconnects (cfg : SubscriberConfig)
    (parse : String → Option JVal) :
    ∀ (ls : List String) (st : SubscriberState),
    (processLines cfg parse st ls).1.stats.total_reconnects = st.stats.total_reconnects
  | [], _ => rfl
  | l :: rest, st => by
    simp only [processLines]
    rw [processLines_total_reconnects cfg parse rest, processLine_total_reconnects]

@[simp] theorem processLine_current_state (cfg : SubscriberConfig)
    (parse : String → Option JVal) (st : SubscriberState) (line : String) :
    (processLine cfg parse st line).1.stats.current_state = st.stats.current_state := by
  unfold processLine
  dsimp only
  repeat' split
  all_goals simp

@[simp] theorem processLines_current_state (cfg : SubscriberConfig)
    (parse : String → Option JVal) :
    ∀ (ls : List String) (st : SubscriberState),
    (processLines cfg parse st ls).1.stats.current_state = st.stats.current_state
  | [], _ => rfl
  | l :: rest, st => by
    simp only [processLines]
    rw [processLines_current_state cfg parse rest, processLine_current_state]

theorem runLoop_connected_pending0 (cfg : SubscriberConfig)
    (parse : String → Option JVal) (cb : OpenCodeEvent → Bool)
    (st : SubscriberState) (js : List ℚ) (lines : List String)
    (rest : List AttemptOutcome)
    (h0 : st.stats.total_reconnects = 0) :
    runLoop cfg parse cb st js (.connected lines .pending :: rest) =
      (let p := processLines cfg parse (connState cfg st) lines
       (p.1, p.2, .stillRunning)) := by
  simp only [runLoop]
  rw [subscribeStep_connected0 cfg parse cb st lines .pending h0]
  simp [afterTry, finResult]

theorem runLoop_connected_pendingR (cfg : SubscriberConfig)
    (parse : String → Option JVal) (cb : OpenCodeEvent → Bool)
    (st : SubscriberState) (js : List ℚ) (lines : List String)
    (rest : List AttemptOutcome)
    (hR : 0 < st.stats.total_reconnects)
    (hcb : cb (mkConnectionRestored st.stats.total_reconnects) = false) :
    runLoop cfg parse cb st js (.connected lines .pending :: rest) =
      (let p := processLines cfg parse (connState cfg st) lines
       (p.1, .deliver (mkConnectionRestored st.stats.total_reconnects) :: p.2,
        .stillRunning)) := by
  simp only [runLoop]
  rw [subscribeStep_connectedR cfg parse cb st lines .pending hR hcb]
  simp [afterTry, finResult]

theorem runLoop_connected_err0 (cfg : SubscriberConfig)
    (parse : String → Option JVal) (cb : OpenCodeEvent → Bool)
    (st : SubscriberState) (js : List ℚ) (lines : List String)
    (rest : List AttemptOutcome)
    (h0 : st.stats.total_reconnects = 0)
    (hcap : cfg.max_reconnect_attempts = none)
    (hcb : cb (mkConnectionLost
      (processLines cfg parse (connState cfg st) lines).1.reconnect_delay)
      = false) :
    runLoop cfg parse cb st js (.connected lines (.err .connErr) :: rest) =
      (let q := processLines cfg parse (connState cfg st) lines
       let t := runLoop cfg parse cb (failStep cfg q.1 (js.headD 1)) js.tail rest
       (t.1, q.2 ++ .deliver (mkConnectionLost q.1.reconnect_delay) ::
             .sleep q.1.reconnect_delay :: t.2.1, t.2.2)) := by
  simp only [runLoop]
  rw [subscribeStep_connected0 cfg parse cb st lines (.err .connErr) h0]
  have hs : (processLines cfg parse (connState cfg st) lines).1.state
      ≠ ConnectionState.RECONNECTING := by
    rw [processLines_state]
    simp [connState]
  simp only [afterTry, finResult]
  rw [afterAttempt_cont cfg cb _ js hs hcap hcb]
  simp

theorem runLoop_fail_phase (cfg : SubscriberConfig)
    (parse : String → Option JVal) (cb : OpenCodeEvent → Bool)
    (hcap : cfg.max_reconnect_attempts = none)
    (hcb : ∀ d, cb (mkConnectionLost d) = false) :
    ∀ (k : ℕ) (st : SubscriberState) (js : List ℚ)
      (rest : List AttemptOutcome),
    runLoop cfg parse cb st js (List.replicate k (.fail .connErr) ++ rest) =
      (let t := runLoop cfg parse cb (failIter cfg k st js) (js.drop k) rest
       (t.1, lostPhase cfg k st.reconnect_delay js ++ t.2.1, t.2.2))
  | 0, st, js, rest => by simp [failIter, lostPhase]
  | k + 1, st, js, rest => by
    rw [List.replicate_succ, List.cons_append,
      runLoop_fail_connErr cfg parse cb st js _ hcap (hcb _),
      runLoop_fail_phase cfg parse cb hcap hcb k (failStep cfg st (js.headD 1))
        js.tail rest]
    have hdrop : js.tail.drop k = js.drop (k + 1) := by
      rw [← List.drop_one, List.drop_drop, Nat.add_comm]
    simp [failIter, lostPhase, hdrop, failStep]

theorem failIter_total_reconnects (cfg : SubscriberConfig) :
    ∀ (k : ℕ) (st : SubscriberState) (js : List ℚ),
    (failIter cfg k st js).stats.total_reconnects
      = st.stats.total_reconnects + k
  | 0, st, js => rfl
  | k + 1, st, js => by
    rw [failIter, failIter_total_reconnects cfg k]
    simp [failStep]
    omega

theorem failIter_total_events (cfg : SubscriberConfig) :
    ∀ (k : ℕ) (st : SubscriberState) (js : List ℚ),
    (failIter cfg k st js).stats.total_events = st.stats.total_events
  | 0, st, js => rfl
  | k + 1, st, js => by
    rw [failIter, failIter_total_events cfg k]
    simp [failStep]

theorem failIter_running (cfg : SubscriberConfig) :
    ∀ (k : ℕ) (st : SubscriberState) (js : List ℚ),
    (failIter cfg k st js).running = st.running
  | 0, st, js => rfl
  | k + 1, st, js => by
    rw [failIter, failIter_running cfg k]
    simp [failStep]

theorem sleepsOf_append (a b : List LoopAction) :
    sleepsOf (a ++ b) = sleepsOf a ++ sleepsOf b := by
  simp [sleepsOf]

theorem sleepsOf_lostPhase (cfg : SubscriberConfig) :
    ∀ (k : ℕ) (d : ℚ) (js : List ℚ),
    sleepsOf (lostPhase cfg k d js) = delays cfg k d js
  | 0, _, _ => rfl
  | k + 1, d, js => by
    have ih := sleepsOf_lostPhase cfg k
      (qmin (d * 2 * js.headD 1) cfg.max_reconnect_delay) js.tail
    rw [lostPhase, delays]
    simpa [sleepsOf] using ih

theorem reg_map_id (i : String) (f : Finset UserPair → Finset UserPair) :
    ∀ (l : Registry), (∀ e ∈ l, (e.1 == i) = false) →
    l.map (fun e => if e.1 == i then (e.1, f e.2) else e) = l
  | [], _ => rfl
  | e :: t, h => by
    have h1 := h e (List.mem_cons_self _ _)
    have h2 := reg_map_id i f t (fun e' he' => h e' (List.mem_cons_of_mem _ he'))
    rw [List.map_cons, if_neg (by simp [h1]), h2]

theorem regLookup_map (i : String) (f : Finset UserPair → Finset UserPair) :
    ∀ (reg : Registry),
    regLookup (reg.map (fun e => if e.1 == i then (e.1, f e.2) else e)) i
      = (regLookup reg i).map f
  | [] => rfl
  | e :: t => by
    by_cases h : (e.1 == i) = true
    · simp [regLookup, List.find?, h]
    · have ih := regLookup_map i f t
      simp only [regLookup, List.map_cons] at ih ⊢
      rw [if_neg (by simpa using h)]
      rw [List.find?]
      rw [List.find?]
      simp only [h, Bool.false_eq_true]
      exact ih

theorem regLookup_append_none (i : String) (s : Finset UserPair) :
    ∀ (reg : Registry), regLookup reg i = none →
    regLookup (reg ++ [(i, s)]) i = some s
  | [], _ => by simp [regLookup, List.find?]
  | e :: t, h => by
    by_cases he : (e.1 == i) = true
    · exfalso
      simp [regLookup, List.find?, he] at h
    · have ht : regLookup t i = none := by
        simp only [regLookup, List.find?, he] at h ⊢
        simpa [he] using h
      have ih := regLookup_append_none i s t ht
      simp only [regLookup, List.cons_append, List.find?, he] at ih ⊢
      simpa [he] using ih

theorem reg_map_eq_self (i : String) (f : Finset UserPair → Finset UserPair) :
    ∀ (reg : Registry), (reg.map Prod.fst).Nodup →
    (∀ s, regLookup reg i = some s → f s = s) →
    reg.map (fun e => if e.1 == i then (e.1, f e.2) else e) = reg
  | [], _, _ => rfl
  | e :: t, hnd, hf => by
    have hnd2 : (e.1 :: t.map Prod.fst).Nodup := by simpa using hnd
    have hnd' := List.nodup_cons.mp hnd2
    by_cases h : (e.1 == i) = true
    · have hi : e.1 = i := by simpa using h
      have hl : regLookup (e :: t) i = some e.2 := by
        simp [regLookup, List.find?, h]
      have hfe := hf e.2 hl
      have htail : ∀ e' ∈ t, (e'.1 == i) = false := by
        intro e' he'
        have hmem : e'.1 ∈ t.map Prod.fst := List.mem_map_of_mem _ he'
        have hne : e'.1 ≠ e.1 := fun hc => hnd'.1 (hc ▸ hmem)
        simpa [hi] using hi ▸ hne
      rw [List.map_cons, if_pos h, hfe, reg_map_id i f t htail, Prod.mk.eta]
    · have hl : regLookup (e :: t) i = regLookup t i := by
        simp [regLookup, List.find?, h]
      have ih := reg_map_eq_self i f t hnd'.2
        (fun s hs => hf s (by rw [hl]; exact hs))
      rw [List.map_cons, if_neg h, ih]

theorem flatMap_if_singleton {α β : Type} (p : α → Bool) (f : α → β) :
    ∀ l : List α, (l.flatMap fun a => if p a then [f a] else [])
      = (l.filter p).map f
  | [] => rfl
  | a :: t => by
    by_cases h : p a <;> simp [h, flatMap_if_singleton p f t]

/-! ### Claims -/

/-- Claim C1 (code bug): after an HTTP 403 on the first subscription
attempt, the loop does break permanently with zero reconnect attempts, zero
`_connection.lost` deliveries and final state DISCONNECTED — but
`_running` is left `true` (the `break` at `events.py:236` never clears it),
so `is_running` keeps returning `True`, contradicting the claim and the
spec. This theorem evaluates the model at the failing input and exhibits
`running := true` in the final state. -/
theorem C1_auth_stop_eval :
    runFromStart ({} : SubscriberConfig) (fun _ => none) cbNever []
      [.fail (.httpStatus 403)] =
    ({ running := true, reconnect_delay := 1, reconnect_attempts := 0,
       state := .DISCONNECTED,
       stats := { total_events := 0, total_reconnects := 0,
                  current_state := .DISCONNECTED } },
     [], .stopped) := by
  unfold runFromStart
  rw [runLoop_fail_auth _ _ _ _ _ _ 403 (Or.inr rfl)]
  simp [startState, setState]

/-- Claim C4 (code bug): the `_connection.lost` callback call at
`events.py:277-282` is outside every `try`, so a callback exception there
escapes `_subscribe_loop` and kills the subscription loop (the final
cleanup at `events.py:295` never runs: the state stays RECONNECTING).
This theorem evaluates the model at a callback that raises on
`_connection.lost` after one connection error: the run ends `crashed`. -/
theorem C4_lost_callback_crash_eval :
    runFromStart ({} : SubscriberConfig) (fun _ => none) cbLostRaises []
      [.fail .connErr] =
    ({ running := true, reconnect_delay := 1, reconnect_attempts := 1,
       state := .RECONNECTING,
       stats := { total_events := 0, total_reconnects := 1,
                  current_state := .RECONNECTING } },
     [.deliver (mkConnectionLost 1)], .crashed) := by
  unfold runFromStart
  rw [runLoop_fail_connErr_crash _ _ _ _ _ _ rfl rfl]
  simp [startState, setState]

/-- Claim C7: the synthetic `_connection.lost` / `_connection.restored`
events carry `session_id = None`; the orchestrator's callback stamps
`instance_id` from `session_id` (`app.py:116`), and `route` returns without
any adapter call when `instance_id` is falsy (`notification.py:59-62`), so
no `send_event` call is ever made for them (for every registry, adapter
list and set enumeration). -/
theorem C7_synthetic_events_not_routed (reg : Registry)
    (adapters : List MAdapter) (enum : List UserPair) (d : ℚ) (n : ℕ) :
    route reg (build_event_dict (mkConnectionLost d)) adapters enum
      = (reg, []) ∧
    route reg (build_event_dict (mkConnectionRestored n)) adapters enum
      = (reg, []) :=
  ⟨rfl, rfl⟩

/-- Claim C10: for every event dict whose `instance_id` is absent or falsy
(e.g. the empty string), `route` makes zero adapter calls and leaves the
registry unchanged (`notification.py:59-62`). -/
theorem C10_missing_instance_id (reg : Registry)
    (event : List (String × JVal)) (adapters : List MAdapter)
    (enum : List UserPair)
    (h : ((dlookup event "instance_id").getD .null).truthy = false) :
    route reg event adapters enum = (reg, []) := by
  unfold route
  simp [h]

/-- Witness for C10 at an event lacking `instance_id`. -/
theorem C10_missing_instance_id_witness :
    (((dlookup [("type", JVal.str "message.created")] "instance_id").getD
        .null).truthy = false) ∧
    route [] [("type", JVal.str "message.created")]
      [{ platform := "tg", sendFails := fun _ _ => false }]
      [("tg", "u1")] = ([], []) :=
  ⟨by decide, C10_missing_instance_id [] _ _ _ (by decide)⟩

/-- Claim C2: in a run where `k ≥ 1` consecutive connection drops are
followed by a successful reconnection, the callback receives exactly one
`_connection.lost` per drop — each delivered immediately before the
corresponding backoff sleep and carrying the delay about to be slept (see
`lostPhase`) — and then exactly one `_connection.restored`, delivered
before any event parsed from the new connection's lines, carrying
`reconnect_count = k`. -/
theorem C2_drop_reconnect_trace (cfg : SubscriberConfig)
    (parse : String → Option JVal) (js : List ℚ) (k : ℕ)
    (lines : List String)
    (hcap : cfg.max_reconnect_attempts = none) (hk : 1 ≤ k) :
    (runFromStart cfg parse cbNever js
      (List.replicate k (.fail .connErr) ++ [.connected lines .pending])).2 =
      (lostPhase cfg k cfg.min_reconnect_delay js ++
        .deliver (mkConnectionRestored k) ::
          (processLines cfg parse
            (connState cfg (failIter cfg k (startState cfg) js)) lines).2,
       .stillRunning) := by
  unfold runFromStart
  rw [runLoop_fail_phase cfg parse cbNever hcap (fun _ => rfl) k
    (startState cfg) js _]
  have h0 : (startState cfg).stats.total_reconnects = 0 := by
    simp [startState]
  have hcount : (failIter cfg k (startState cfg) js).stats.total_reconnects
      = k := by
    rw [failIter_total_reconnects, h0]
    omega
  have hR : 0 < (failIter cfg k (startState cfg) js).stats.total_reconnects := by
    omega
  rw [runLoop_connected_pendingR cfg parse cbNever _ (js.drop k) lines []
    hR rfl]
  have hd : (startState cfg).reconnect_delay = cfg.min_reconnect_delay := by
    simp [startState]
  simp [hcount, hd]

/-- Witness for C2 at `k = 3` drops with unit jitter. -/
theorem C2_drop_reconnect_trace_witness :
    (({} : SubscriberConfig).max_reconnect_attempts = none) ∧ 1 ≤ 3 ∧
    (runFromStart ({} : SubscriberConfig) (fun _ => none) cbNever [1, 1, 1]
      (List.replicate 3 (.fail .connErr) ++ [.connected [] .pending])).2 =
      (lostPhase {} 3 ({} : SubscriberConfig).min_reconnect_delay [1, 1, 1] ++
        .deliver (mkConnectionRestored 3) ::
          (processLines {} (fun _ => none)
            (connState {} (failIter {} 3 (startState {}) [1, 1, 1])) []).2,
       .stillRunning) :=
  ⟨rfl, by norm_num,
    C2_drop_reconnect_trace {} (fun _ => none) [1, 1, 1] 3 [] rfl
      (by norm_num)⟩

/-- Counterexample to claim C3: with jitter draws `1.2, 1.2`, the delay
slept after the third consecutive failure (k = 2) is `144/25 = 5.76`,
but `min(min_delay · 2² · j, max_delay) = 4j ≤ 4.8` for every single
jitter factor `j ∈ [0.8, 1.2]` — the code compounds the jitter of every
previous attempt (`events.py:289-293`), so no single draw explains the
slept delay. -/
theorem C3_single_jitter_counterexample :
    sleepsOf (runFromStart ({} : SubscriberConfig) (fun _ => none) cbNever
        [6/5, 6/5] (List.replicate 3 (.fail .connErr))).2.1
      = [1, 12/5, 144/25] ∧
    ¬ ∃ j : ℚ, 4/5 ≤ j ∧ j ≤ 6/5 ∧
        (144/25 : ℚ) = min (1 * 2 ^ 2 * j) 30 := by
  constructor
  · unfold runFromStart
    rw [← List.append_nil (List.replicate 3 (AttemptOutcome.fail .connErr))]
    rw [runLoop_fail_phase _ _ _ rfl (fun _ => rfl) 3 _ _ []]
    have hd : (startState ({} : SubscriberConfig)).reconnect_delay = 1 := by
      simp [startState]
    simp only [runLoop, hd, sleepsOf_append, sleepsOf_lostPhase]
    norm_num [delays, qmin, sleepsOf]
  · rintro ⟨j, h1, h2, h3⟩
    rw [min_eq_left (by linarith)] at h3
    have hj : j = 36/25 := by linarith
    rw [hj] at h2
    norm_num at h2

/-- Claim C3 amended: the delay slept after the `k`-th consecutive failure
follows `d₀ = min_delay`, `dₖ₊₁ = min(dₖ · 2 · jitterₖ, max_delay)` with
each jitter in `[0.8, 1.2]` — jitter compounds multiplicatively across
attempts rather than applying once to `min_delay · 2ᵏ` — and the delay is
reset to `min_delay` on a successful (re)connection. -/
theorem C3_backoff_compound_jitter (cfg : SubscriberConfig)
    (parse : String → Option JVal) (js : List ℚ) (k : ℕ)
    (hcap : cfg.max_reconnect_attempts = none) :
    sleepsOf (runFromStart cfg parse cbNever js
        (List.replicate k (.fail .connErr))).2.1
      = delays cfg k cfg.min_reconnect_delay js ∧
    (runFromStart cfg parse cbNever js
        (List.replicate k (.fail .connErr) ++
          [.connected [] .pending])).1.reconnect_delay
      = cfg.min_reconnect_delay := by
  have hd : (startState cfg).reconnect_delay = cfg.min_reconnect_delay := by
    simp [startState]
  constructor
  · unfold runFromStart
    rw [← List.append_nil (List.replicate k (AttemptOutcome.fail .connErr))]
    rw [runLoop_fail_phase cfg parse cbNever hcap (fun _ => rfl) k _ js []]
    simp only [runLoop, hd, sleepsOf_append, sleepsOf_lostPhase]
    simp [sleepsOf]
  · unfold runFromStart
    rw [runLoop_fail_phase cfg parse cbNever hcap (fun _ => rfl) k
      (startState cfg) js _]
    by_cases hR : 0 < (failIter cfg k (startState cfg) js).stats.total_reconnects
    · rw [runLoop_connected_pendingR cfg parse cbNever _ (js.drop k) [] []
        hR rfl]
      simp [processLines, connState]
    · have h0 : (failIter cfg k (startState cfg) js).stats.total_reconnects
          = 0 := by omega
      rw [runLoop_connected_pending0 cfg parse cbNever _ (js.drop k) [] [] h0]
      simp [processLines, connState]

/-- Witness for the amended C3 at `k = 2` with jitter draws `1.2, 0.9`. -/
theorem C3_backoff_compound_jitter_witness :
    (({} : SubscriberConfig).max_reconnect_attempts = none) ∧
    (sleepsOf (runFromStart ({} : SubscriberConfig) (fun _ => none) cbNever
        [6/5, 9/10] (List.replicate 2 (.fail .connErr))).2.1
      = delays {} 2 ({} : SubscriberConfig).min_reconnect_delay [6/5, 9/10] ∧
    (runFromStart ({} : SubscriberConfig) (fun _ => none) cbNever [6/5, 9/10]
        (List.replicate 2 (.fail .connErr) ++
          [.connected [] .pending])).1.reconnect_delay
      = ({} : SubscriberConfig).min_reconnect_delay) :=
  ⟨rfl, C3_backoff_compound_jitter {} (fun _ => none) [6/5, 9/10] 2 rfl⟩

/-- Counterexample to claim C5: after a `retry: 10000` hint the next
backoff sleep is the clamped `10` seconds (that part of the claim holds),
but the attempt after that sleeps `min(10·2·j, 30) = 20` (jitter 1) — the
exponential schedule continues doubling from the overridden value
(`events.py:290-293`), not from the pre-hint state (whose delay was the
reset `min_delay = 1`, which would give `2j ∈ [1.6, 2.4]`). -/
theorem C5_retry_hint_counterexample :
    (runFromStart ({} : SubscriberConfig) (fun _ => none) cbNever [1, 1]
      [.connected ["retry: 10000"] (.err .connErr), .fail .connErr]).2.1 =
    [.deliver (mkConnectionLost 10), .sleep 10,
     .deliver (mkConnectionLost 20), .sleep 20] ∧
    ¬ ∃ j : ℚ, 4/5 ≤ j ∧ j ≤ 6/5 ∧ (20 : ℚ) = min (1 * 2 * j) 30 := by
  constructor
  · have h0 : (startState ({} : SubscriberConfig)).stats.total_reconnects
        = 0 := by simp [startState]
    have e0 : ("retry: 10000" = "") = False := by simp
    have e1 : pyStartsWith "retry: 10000" "data:" = false := by decide
    have e2 : pyStartsWith "retry: 10000" "event:" = false := by decide
    have e3 : pyStartsWith "retry: 10000" "id:" = false := by decide
    have e4 : pyStartsWith "retry: 10000" "retry:" = true := by decide
    have e5 : pyInt (pyTrim (pyDrop "retry: 10000" 6)) = some 10000 := by
      decide
    have hq : processLines ({} : SubscriberConfig) (fun _ => none)
        (connState {} (startState {})) ["retry: 10000"] =
        ({ running := true, reconnect_delay := 10, reconnect_attempts := 0,
           state := .CONNECTED,
           stats := { total_events := 0, total_reconnects := 0,
                      current_state := .CONNECTED } }, []) := by
      norm_num [processLines, processLine, connState, startState, setState,
        qmin, qmax, e0, e1, e2, e3, e4, e5]
      and_intros <;> simp
    unfold runFromStart
    rw [runLoop_connected_err0 _ _ _ _ _ _ _ h0 rfl rfl]
    simp only [hq]
    rw [runLoop_fail_connErr _ _ _ _ _ _ rfl rfl]
    simp only [runLoop]
    norm_num [failStep, qmin]
  · rintro ⟨j, h1, h2, h3⟩
    rw [min_eq_left (by linarith)] at h3
    have hj : j = 10 := by linarith
    rw [hj] at h2
    norm_num at h2

/-- Claim C5 amended: an SSE `retry: r` line sets the current delay to
`r/1000` clamped to `[min_reconnect_delay, max_reconnect_delay]`
(`events.py:385-395`); the next reconnection attempt sleeps exactly that
clamped value — but the override is not limited to one attempt: the
exponential schedule continues doubling from the overridden value
(the delay after the next sleep is `min(c · 2 · jitter, max_delay)`),
rather than resuming from the pre-hint state. -/
theorem C5_retry_hint_clamped_and_seeds_schedule (cfg : SubscriberConfig)
    (parse : String → Option JVal) (cb : OpenCodeEvent → Bool)
    (st : SubscriberState) (line : String) (r : ℤ) (js : List ℚ)
    (h0 : line ≠ "")
    (h1 : pyStartsWith line "data:" = false)
    (h2 : pyStartsWith line "event:" = false)
    (h3 : pyStartsWith line "id:" = false)
    (h4 : pyStartsWith line "retry:" = true)
    (h5 : pyInt (pyTrim (pyDrop line 6)) = some r)
    (hcap : cfg.max_reconnect_attempts = none)
    (hcb : cb (mkConnectionLost (clampDelay cfg r)) = false) :
    processLine cfg parse st line =
      ({ st with reconnect_delay := clampDelay cfg r }, []) ∧
    (runLoop cfg parse cb ({ st with reconnect_delay := clampDelay cfg r })
        js [.fail .connErr]).2.1
      = [.deliver (mkConnectionLost (clampDelay cfg r)),
         .sleep (clampDelay cfg r)] ∧
    (runLoop cfg parse cb ({ st with reconnect_delay := clampDelay cfg r })
        js [.fail .connErr]).1.reconnect_delay
      = qmin (clampDelay cfg r * 2 * js.headD 1) cfg.max_reconnect_delay := by
  refine ⟨?_, ?_, ?_⟩
  · unfold processLine clampDelay
    rw [if_neg h0, if_neg (by simp [h1]), if_neg (by simp [h2]),
      if_neg (by simp [h3]), if_pos (by simp [h4]), h5]
  · rw [runLoop_fail_connErr cfg parse cb _ js [] hcap (by simpa using hcb)]
    simp [runLoop]
  · rw [runLoop_fail_connErr cfg parse cb _ js [] hcap (by simpa using hcb)]
    simp [runLoop, failStep]

/-- Witness for the amended C5: `retry: 10000` with `min = 1`, `max = 30`
clamps to 10. -/
theorem C5_retry_hint_clamped_witness :
    ("retry: 10000" ≠ "" ∧
     pyStartsWith "retry: 10000" "data:" = false ∧
     pyStartsWith "retry: 10000" "retry:" = true ∧
     pyInt (pyTrim (pyDrop "retry: 10000" 6)) = some 10000) ∧
    (processLine ({} : SubscriberConfig) (fun _ => none) (startState {})
        "retry: 10000" =
      ({ startState ({} : SubscriberConfig) with
          reconnect_delay := clampDelay {} 10000 }, [])) :=
  ⟨⟨by decide, by decide, by decide, by decide⟩,
   (C5_retry_hint_clamped_and_seeds_schedule {} (fun _ => none) cbNever
      (startState {}) "retry: 10000" 10000 [1] (by decide) (by decide)
      (by decide) (by decide) (by decide) (by decide) rfl rfl).1⟩

/-- Claim C6: a `data:` line whose payload does not parse as JSON delivers
no event, leaves the subscriber state (including `total_events`) exactly
unchanged, and does not tear the connection down: processing the rest of
the lines continues as if the malformed line had not been there, so
subsequent valid `data:` lines still produce events
(`events.py:357-375`). -/
theorem C6_malformed_json_skipped (cfg : SubscriberConfig)
    (parse : String → Option JVal) (st : SubscriberState) (line : String)
    (rest : List String)
    (h1 : pyStartsWith line "data:" = true)
    (h2 : parse (pyTrim (pyDrop line 5)) = none) :
    processLine cfg parse st line = (st, []) ∧
    processLines cfg parse st (line :: rest)
      = processLines cfg parse st rest := by
  have h0 : line ≠ "" := by
    intro h
    rw [h] at h1
    exact absurd h1 (by decide)
  have hpl : processLine cfg parse st line = (st, []) := by
    unfold processLine
    rw [if_neg h0, if_pos (by simp [h1])]
    by_cases hd : pyTrim (pyDrop line 5) = ""
    · rw [if_pos hd]
    · rw [if_neg hd, h2]
  refine ⟨hpl, ?_⟩
  simp only [processLines, hpl]
  simp

/-- Witness for C6: the line `data: {oops` with a parser that rejects it,
followed by another line. -/
theorem C6_malformed_json_skipped_witness :
    (pyStartsWith "data: \x7boops" "data:" = true ∧
     (fun _ => (none : Option JVal)) (pyTrim (pyDrop "data: \x7boops" 5))
       = none) ∧
    processLine ({} : SubscriberConfig) (fun _ => none) (startState {})
      "data: \x7boops" = (startState {}, []) :=
  ⟨⟨by decide, rfl⟩,
   (C6_malformed_json_skipped {} (fun _ => none) (startState {})
      "data: \x7boops" ["data: ok"] (by decide) rfl).1⟩

/-- Counterexample to claim C8: the online registry is a CPython `set`, and
`route` iterates `list(set)` — an enumeration whose order CPython does not
tie to registration order. After registering `("tg","u1")` then
`("tg","u2")` for instance `"i"`, the enumeration `[("tg","u2"),
("tg","u1")]` is an admissible output of `list(...)`, and under it `route`
delivers to `u2` before `u1` — not the registration order `[u1, u2]`. -/
theorem C8_registration_order_counterexample :
    admissibleEnum
      (get_online_users
        (register_online (register_online [] "i" "tg" "u1") "i" "tg" "u2")
        "i")
      [("tg", "u2"), ("tg", "u1")] ∧
    ((route (register_online (register_online [] "i" "tg" "u1") "i" "tg" "u2")
        [("instance_id", .str "i")]
        [{ platform := "tg", sendFails := fun _ _ => false }]
        [("tg", "u2"), ("tg", "u1")]).2.map (fun c => c.user_id))
      = ["u2", "u1"] ∧
    (["u2", "u1"] : List String) ≠ ["u1", "u2"] := by
  refine ⟨by decide, rfl, by decide⟩

/-- Claim C8 amended: within one `route` call the event is delivered
sequentially — user by user, in the order of the enumeration that
`list(set)` produced (an admissible but otherwise arbitrary enumeration of
the online set), with, for each user, the matching adapters in list order —
and with no reordering relative to that enumeration. Registration order is
not guaranteed. -/
theorem C8_sequential_in_enum_order (reg : Registry)
    (event : List (String × JVal)) (adapters : List MAdapter)
    (enum : List UserPair) (s : String)
    (hs : dlookup event "instance_id" = some (.str s)) (hne : s ≠ "")
    (hadm : admissibleEnum (get_online_users reg s) enum) :
    (route reg event adapters enum).2 =
      enum.flatMap (fun pu =>
        (adapters.filter (fun ad => ad.platform == pu.1)).map
          (fun ad => { platform := pu.1, user_id := pu.2,
                       ok := !ad.sendFails pu.2 event })) := by
  unfold route
  rw [hs]
  have ht : (JVal.str s).truthy = true := by
    simp [JVal.truthy, hne]
  simp only [Option.getD_some, ht, if_true]
  unfold routeUsers
  congr 1
  funext pu
  rw [flatMap_if_singleton]

/-- Witness for the amended C8: two online users, one matching adapter. -/
theorem C8_sequential_in_enum_order_witness :
    (dlookup [("instance_id", JVal.str "i")] "instance_id"
        = some (.str "i") ∧
     ("i" : String) ≠ "" ∧
     admissibleEnum
       (get_online_users
         (register_online (register_online [] "i" "tg" "u1") "i" "tg" "u2")
         "i")
       [("tg", "u2"), ("tg", "u1")]) ∧
    (route (register_online (register_online [] "i" "tg" "u1") "i" "tg" "u2")
        [("instance_id", JVal.str "i")]
        [{ platform := "tg", sendFails := fun _ _ => false }]
        [("tg", "u2"), ("tg", "u1")]).2 =
      ([("tg", "u2"), ("tg", "u1")] : List UserPair).flatMap (fun pu =>
        (([{ platform := "tg", sendFails := fun _ _ => false }] :
            List MAdapter).filter (fun ad => ad.platform == pu.1)).map
          (fun ad => { platform := pu.1, user_id := pu.2,
                       ok := !ad.sendFails pu.2
                         [("instance_id", JVal.str "i")] })) :=
  ⟨⟨rfl, by decide, by decide⟩,
   C8_sequential_in_enum_order _ _ _ _ "i" rfl (by decide) (by decide)⟩

/-- Claim C9: for every registry with (Python-dict) unique keys,
`register_online` makes the pair a member of `get_online_users`,
`unregister_online` removes it, and both are idempotent: registering an
already-present pair and unregistering an absent pair leave the registry
exactly unchanged (`notification.py:19-38`). -/
theorem C9_register_unregister_idempotent (reg : Registry) (i p u : String)
    (hkeys : (reg.map Prod.fst).Nodup) :
    ((p, u) ∈ get_online_users (register_online reg i p u) i) ∧
    ((p, u) ∉ get_online_users (unregister_online reg i p u) i) ∧
    ((p, u) ∈ get_online_users reg i → register_online reg i p u = reg) ∧
    ((p, u) ∉ get_online_users reg i → unregister_online reg i p u = reg) := by
  refine ⟨?_, ?_, ?_, ?_⟩
  · unfold register_online
    cases hl : regLookup reg i with
    | some s =>
      simp only [hl]
      unfold get_online_users
      rw [regLookup_map, hl]
      simp
    | none =>
      simp only [hl]
      unfold get_online_users
      rw [regLookup_append_none i _ reg hl]
      simp
  · unfold unregister_online
    cases hl : regLookup reg i with
    | some s =>
      simp only [hl]
      unfold get_online_users
      rw [regLookup_map i (fun x => x.erase (p, u)) reg, hl]
      simp
    | none =>
      simp only [hl]
      unfold get_online_users
      rw [hl]
      simp
  · intro hmem
    unfold get_online_users at hmem
    cases hl : regLookup reg i with
    | none =>
      rw [hl] at hmem
      simp at hmem
    | some s =>
      rw [hl] at hmem
      simp only [Option.getD_some] at hmem
      unfold register_online
      simp only [hl]
      exact reg_map_eq_self i (fun x => insert (p, u) x) reg hkeys
        (fun s' hs' => by
          rw [hl] at hs'
          cases hs'
          exact Finset.insert_eq_self.mpr hmem)
  · intro hmem
    unfold get_online_users at hmem
    cases hl : regLookup reg i with
    | none =>
      unfold unregister_online
      rw [hl]
    | some s =>
      rw [hl] at hmem
      simp only [Option.getD_some] at hmem
      unfold unregister_online
      simp only [hl]
      exact reg_map_eq_self i (fun x => x.erase (p, u)) reg hkeys
        (fun s' hs' => by
          rw [hl] at hs'
          cases hs'
          exact Finset.erase_eq_of_not_mem hmem)

/-- Witness for C9 on a one-entry registry. -/
theorem C9_register_unregister_idempotent_witness :
    (((register_online [] "i" "tg" "u").map Prod.fst).Nodup) ∧
    (("tg", "u") ∈ get_online_users
        (register_online (register_online [] "i" "tg" "u") "i" "tg" "u")
        "i") ∧
    (("tg", "u") ∉ get_online_users
        (unregister_online (register_online [] "i" "tg" "u") "i" "tg" "u")
        "i") ∧
    (("tg", "u") ∈ get_online_users (register_online [] "i" "tg" "u") "i" →
      register_online (register_online [] "i" "tg" "u") "i" "tg" "u"
        = register_online [] "i" "tg" "u") ∧
    (("tg", "u") ∉ get_online_users (register_online [] "i" "tg" "u") "i" →
      unregister_online (register_online [] "i" "tg" "u") "i" "tg" "u"
        = register_online [] "i" "tg" "u") :=
  ⟨by decide,
   C9_register_unregister_idempotent (register_online [] "i" "tg" "u")
     "i" "tg" "u" (by decide)⟩
